import Mathlib

/-!
Verification of the multi-persona development-assistant repository (agents,
configuration, template generators, validators) against its specification.

Python strings are modelled as Lean `String` (a wrapper around `List Char`);
Python's `str.strip`, `str.split('\n')`, `in` (substring search) and
`str.startswith` are embedded below.  External toolchain calls
(`subprocess.run`, SDK clients, YAML parser) are modelled as explicit
function parameters ("oracles"); environment variables are modelled as a
record holding the values resolved by `os.getenv` (with the source's
defaults applied) after `int()`/`float()` parsing, with temperatures as
rationals.
-/

set_option maxRecDepth 10000

/-- ASCII whitespace recognised by Python's default `str.strip`
(space, tab, newline, vertical tab, form feed, carriage return).
Python additionally strips some rare Unicode space characters; none of the
strings manipulated by this repository contain them. -/
def pyIsSpace (c : Char) : Bool :=
  c = ' ' || c = '\t' || c = '\n' || c = '\x0b' || c = '\x0c' || c = '\r'

/-- Left part of Python `str.strip`. -/
def pyStripLeft (l : List Char) : List Char := l.dropWhile pyIsSpace

/-- Right part of Python `str.strip`. -/
def pyStripRight (l : List Char) : List Char :=
  (l.reverse.dropWhile pyIsSpace).reverse

/-- Python `str.strip()` with no argument. -/
def pyStrip (l : List Char) : List Char := pyStripRight (pyStripLeft l)

/-- `isPrefixOfL p l` decides whether `p` is a prefix of `l`
(Python `str.startswith`). -/
def isPrefixOfL : List Char → List Char → Bool
  | [], _ => true
  | _ :: _, [] => false
  | a :: as, b :: bs => a = b && isPrefixOfL as bs

/-- `occursIn sub l` decides whether `sub` occurs contiguously in `l`
(Python's `sub in s` substring test). -/
def occursIn (sub : List Char) : List Char → Bool
  | [] => isPrefixOfL sub []
  | x :: t => isPrefixOfL sub (x :: t) || occursIn sub t

/-- Python `sub in s` on strings. -/
def strOccurs (sub s : String) : Bool := occursIn sub.data s.data

/-- Python `s.startswith(p)` on strings. -/
def pyStartsWith (s p : String) : Bool := isPrefixOfL p.data s.data

/-- Python `s.split('\n')`. -/
def splitNL : List Char → List (List Char)
  | [] => [[]]
  | c :: r =>
    if c = '\n' then [] :: splitNL r
    else
      match splitNL r with
      | [] => [[c]]
      | h :: t => (c :: h) :: t

/-- `'\n'.join` on the character-list representation. -/
def joinNL : List (List Char) → List Char
  | [] => []
  | [l] => l
  | l :: ls => l ++ '\n' :: joinNL ls

/-- `utils/helpers.py` `validate_agent_input(user_input, max_length=2000)`:
false when the text is empty or strips to empty, false when its length
exceeds `max_length`, true otherwise. -/
def validate_agent_input (user_input : String) (max_length : Nat := 2000) : Bool :=
  if user_input.data = [] || pyStrip user_input.data = [] then false
  else if user_input.data.length > max_length then false
  else true

/-- `utils/helpers.py` `sanitize_response(response)`: empty input maps to a
fallback message; otherwise split on newlines, strip each line, drop blank
lines, rejoin with newlines. -/
def sanitize_response (response : String) : String :=
  if response.data = [] then "抱歉，无法生成响应。"
  else ⟨joinNL (((splitNL response.data).map pyStrip).filter (· ≠ []))⟩

/-- One conversation-history entry as built by `BaseAgent.add_to_history`:
a role tag, the text content, and the formatted timestamp string. -/
structure Turn where
  role : String
  content : String
  timestamp : String
deriving DecidableEq

/-- `agents/base_agent.py` `BaseAgent.add_to_history(role, content, timestamp)`:
append the new entry, then, if the list exceeds 20 entries, keep only the
last 20 (`self.conversation_history[-20:]`).  The formatted timestamp is
passed in as `ts`. -/
def add_to_history (h : List Turn) (role content ts : String) : List Turn :=
  let l := h ++ [⟨role, content, ts⟩]
  if l.length > 20 then l.drop (l.length - 20) else l

/-- Python `l[-20:]`: the last (at most) 20 elements of a list. -/
def last20 (l : List Turn) : List Turn := l.drop (l.length - 20)

/-- Replay a sequence of turns through `add_to_history`, starting from the
empty history a fresh `BaseAgent` holds. -/
def run_history (turns : List Turn) : List Turn :=
  turns.foldl (fun h t => add_to_history h t.role t.content t.timestamp) []

/-- The process environment as read by `config/settings.py` and
`agents/multi_ai_agent.py`: each field holds the result of the
corresponding `os.getenv(NAME, default)` call with the source's default,
after `int()`/`float()` parsing (temperatures as rationals).
`OPENAI_BASE_URL` is present because the repository's tests and
`app.py` read it; `MultiAIAgent` itself never does. -/
structure Env where
  OPENAI_API_KEY : String := ""
  OPENAI_MODEL : String := "gpt-3.5-turbo"
  OPENAI_MAX_TOKENS : Nat := 1000
  OPENAI_TEMPERATURE : ℚ := 7/10
  CLAUDE_API_KEY : String := ""
  CLAUDE_MODEL : String := "claude-3-sonnet-20240229"
  CLAUDE_MAX_TOKENS : Nat := 1000
  CLAUDE_TEMPERATURE : ℚ := 7/10
  QWEN_API_KEY : String := ""
  QWEN_MODEL : String := "qwen-turbo"
  QWEN_MAX_TOKENS : Nat := 1000
  QWEN_TEMPERATURE : ℚ := 7/10
  OPENAI_BASE_URL : String := "https://api.openai.com/v1"
  MODEL_NAME : String := "gpt-3.5-turbo"
  MAX_TOKENS : Nat := 1000
deriving DecidableEq

/-- One entry of the `agent_configs` dict in
`config/settings.py::get_agent_config`. -/
structure PersonaPart where
  system_prompt : String
  temperature : ℚ
deriving DecidableEq

/-- The `"operations"` entry of `agent_configs`. -/
def operations_config : PersonaPart :=
  ⟨"你是一个专业的运维专家，具有以下专长：\n1. 服务器部署和配置管理\n2. 容器化技术（Docker, Kubernetes）\n3. CI/CD 流水线搭建和维护\n4. 系统监控和性能优化\n5. 故障排查和应急响应\n6. 自动化脚本开发\n\n请提供专业、准确、实用的运维建议和解决方案。",
   3/10⟩

/-- The `agent_configs` dict of `config/settings.py::get_agent_config`,
as a partial lookup (`None` models a missing key). -/
def agent_configs (agent_type : String) : Option PersonaPart :=
  if agent_type = "operations" then some operations_config
  else if agent_type = "go" then
    some ⟨"你是一个专业的Go语言开发专家，具有以下专长：\n1. Go语言语法和最佳实践\n2. 并发编程和goroutine管理\n3. 微服务架构设计\n4. 性能优化和内存管理\n5. 测试驱动开发\n6. 标准库和第三方库使用\n\n请提供符合Go语言规范的高质量代码建议和解决方案。",
          1/5⟩
  else if agent_type = "monitoring" then
    some ⟨"你是一个专业的监控专家，具有以下专长：\n1. 系统监控架构设计\n2. 指标收集和存储（Prometheus, Grafana）\n3. 日志管理和分析\n4. 告警规则配置\n5. 性能瓶颈分析\n6. 监控系统集成\n\n请提供全面、实用的监控方案和优化建议。",
          2/5⟩
  else if agent_type = "ansible" then
    some ⟨"你是一个专业的Ansible专家，具有以下专长：\n1. Ansible基础架构和概念\n2. 系统配置自动化\n3. 应用部署自动化\n4. 云平台集成\n5. 监控和日志自动化\n6. DevOps工具链集成\n\n请提供专业、准确、实用的Ansible自动化方案。",
          3/10⟩
  else none

/-- The record returned by `config/settings.py::get_agent_config`. -/
structure AgentConfigRecord where
  model_name : String
  temperature : ℚ
  max_tokens : Nat
  system_prompt : String
  api_key : String
deriving DecidableEq

/-- `config/settings.py::get_agent_config(agent_type)`: looks up the
persona entry with `agent_configs.get(agent_type, agent_configs["operations"])`
and merges it with the global settings. -/
def get_agent_config (env : Env) (agent_type : String) : AgentConfigRecord :=
  let config := (agent_configs agent_type).getD operations_config
  ⟨env.MODEL_NAME, config.temperature, env.MAX_TOKENS, config.system_prompt,
   env.OPENAI_API_KEY⟩

/-- The provider configuration dict built by
`MultiAIAgent._get_provider_config`. -/
structure ProviderConfig where
  api_key : String
  base_url : String
  model : String
  max_tokens : Nat
  temperature : ℚ
  system_prompt : String
deriving DecidableEq

/-- `agents/multi_ai_agent.py::MultiAIAgent._get_provider_config`:
selects the per-provider dict (`provider_configs.get(self.provider,
provider_configs["openai"])`) and attaches the persona system prompt.
Note the `base_url` values are hard-coded literals; no `OPENAI_BASE_URL`
environment lookup occurs anywhere in this function. -/
def _get_provider_config (env : Env) (agent_type provider : String) : ProviderConfig :=
  let base_config := get_agent_config env agent_type
  if provider = "openai" then
    ⟨env.OPENAI_API_KEY, "https://api.openai.com/v1", env.OPENAI_MODEL,
     env.OPENAI_MAX_TOKENS, env.OPENAI_TEMPERATURE, base_config.system_prompt⟩
  else if provider = "claude" then
    ⟨env.CLAUDE_API_KEY, "https://api.anthropic.com", env.CLAUDE_MODEL,
     env.CLAUDE_MAX_TOKENS, env.CLAUDE_TEMPERATURE, base_config.system_prompt⟩
  else if provider = "qwen" then
    ⟨env.QWEN_API_KEY, "https://dashscope.aliyuncs.com/api/v1", env.QWEN_MODEL,
     env.QWEN_MAX_TOKENS, env.QWEN_TEMPERATURE, base_config.system_prompt⟩
  else
    ⟨env.OPENAI_API_KEY, "https://api.openai.com/v1", env.OPENAI_MODEL,
     env.OPENAI_MAX_TOKENS, env.OPENAI_TEMPERATURE, base_config.system_prompt⟩

/-- `agents/multi_ai_agent.py::MultiAIAgent.validate_provider_config`:
rejects an empty key, then applies the per-provider shallow format check
(`sk-` / `sk-ant-` prefix, length ≥ 10 for qwen).  The `try`/`except`
blocks in the source cannot raise on these pure string operations. -/
def validate_provider_config (provider : String) (config : ProviderConfig) :
    Bool × String :=
  if config.api_key = "" then (false, provider ++ " API密钥未设置")
  else if provider = "openai" then
    if ¬ pyStartsWith config.api_key "sk-" then (false, "OpenAI API密钥格式不正确")
    else (true, "配置验证通过")
  else if provider = "claude" then
    if ¬ pyStartsWith config.api_key "sk-ant-" then (false, "Claude API密钥格式不正确")
    else (true, "配置验证通过")
  else if provider = "qwen" then
    if config.api_key.length < 10 then (false, "Qwen API密钥格式不正确")
    else (true, "配置验证通过")
  else (true, "配置验证通过")

/-- The environment of the repository's own regression scenario
(`tests/test_api_integration.py::test_zhipu_ai_integration`): a
zhipu-format OpenAI key together with the bigmodel.cn base URL. -/
def zhipu_env : Env :=
  { OPENAI_API_KEY := "66fa8bd3f4984c5d969e444cd0d5805d.FuGSLsJ40iE8f3zn",
    OPENAI_BASE_URL := "https://open.bigmodel.cn/api/paas/v4",
    OPENAI_MODEL := "glm-4.5" }


/-- The SDK client handle constructed by `MultiAIAgent._initialize_client`:
an OpenAI client, an Anthropic client, or the DashScope `Generation`
class.  `none` models the qwen path when the dashscope package is not
importable. -/
inductive Client where
  | openaiClient (api_key : String)
  | anthropicClient (api_key : String)
  | dashscopeGeneration
deriving DecidableEq

/-- `agents/multi_ai_agent.py::MultiAIAgent._initialize_client`; `ds`
models whether the dashscope SDK import succeeds. -/
def _initialize_client (provider : String) (config : ProviderConfig) (ds : Bool) :
    Except String (Option Client) :=
  if provider = "openai" then .ok (some (.openaiClient config.api_key))
  else if provider = "claude" then .ok (some (.anthropicClient config.api_key))
  else if provider = "qwen" then .ok (if ds then some .dashscopeGeneration else none)
  else .error ("不支持的AI提供商: " ++ provider)

/-- The mutable fields of a `MultiAIAgent` instance. -/
structure AgentState where
  agent_type : String
  provider : String
  config : ProviderConfig
  client : Option Client
  conversation_history : List Turn
deriving DecidableEq

/-- `agents/multi_ai_agent.py::MultiAIAgent.switch_provider`: raises on a
name outside the three supported providers, otherwise re-resolves the
configuration and re-constructs the client; `conversation_history` is not
touched. -/
def switch_provider (env : Env) (ds : Bool) (s : AgentState)
    (new_provider : String) : Except String AgentState :=
  if new_provider ≠ "openai" ∧ new_provider ≠ "claude" ∧ new_provider ≠ "qwen" then
    .error ("不支持的AI提供商: " ++ new_provider)
  else
    match _initialize_client new_provider
        (_get_provider_config env s.agent_type new_provider) ds with
    | .error e => .error e
    | .ok c =>
      .ok { s with provider := new_provider,
                   config := _get_provider_config env s.agent_type new_provider,
                   client := c }

/-- The record returned by `MultiAIAgent.get_provider_info`. -/
structure ProviderInfo where
  provider : String
  model : String
  max_tokens : Nat
  temperature : ℚ
  api_key_status : String
deriving DecidableEq

/-- `agents/multi_ai_agent.py::MultiAIAgent.get_provider_info`. -/
def get_provider_info (s : AgentState) : ProviderInfo :=
  ⟨s.provider, s.config.model, s.config.max_tokens, s.config.temperature,
   if s.config.api_key ≠ "" then "已设置" else "未设置"⟩

/-- A concrete agent state used to witness the provider-switch theorem. -/
def sample_state : AgentState :=
  ⟨"operations", "openai", _get_provider_config {} "operations" "openai",
   some (.openaiClient ""),
   [⟨"user", "hi", "t1"⟩, ⟨"assistant", "hello", "t2"⟩]⟩

/-- `agents/multi_ai_agent.py::MultiAIAgent._generate_response`: dispatches
to the per-provider generation path (whose provider API call is modelled
by `call` — `.ok` a reply text, `.error` a raised exception's message),
raises on an unsupported provider, and converts any exception caught at
this boundary into the error template
`抱歉，处理您的请求时发生了错误：<message>`. -/
def multi_generate_response (provider : String) (call : Except String String) :
    String :=
  match (if provider = "openai" then call
         else if provider = "claude" then call
         else if provider = "qwen" then call
         else .error ("不支持的AI提供商: " ++ provider)) with
  | .ok s => s
  | .error e => "抱歉，处理您的请求时发生了错误：" ++ e

/-- `agents/base_agent.py::BaseAgent.process_request`: validate the input,
record the user turn, generate a response (here the `MultiAIAgent` path,
which never lets an exception escape), sanitize it, record the assistant
turn, and return it.  `now` is the formatted timestamp used for both
recorded turns. -/
def process_request (provider : String) (call : Except String String)
    (now : String) (st : List Turn) (user_input : String) :
    String × List Turn :=
  if validate_agent_input user_input = false then
    ("输入无效，请提供有效的问题或请求。", st)
  else
    let h1 := add_to_history st "user" user_input now
    let response := sanitize_response (multi_generate_response provider call)
    let h2 := add_to_history h1 "assistant" response now
    (response, h2)



/-- Result of a completed `subprocess.run` call. -/
structure SubprocessResult where
  returncode : Nat
  stderr : String
deriving DecidableEq

/-- The external toolchain invocations of `utils/code_generator.py`,
modelled as oracles: the Python syntax check, the Go build, the YAML safe
load, and `bash -n` on a temp file holding the given code (run with
`timeout=10`; an `.error` models a raised exception such as a timeout or
a write failure). -/
structure Toolchain where
  python_check : String → Bool × String
  go_build : String → Bool × String
  yaml_safe_load : String → Bool × String
  bash_syntax_check : String → Except String SubprocessResult

/-- `utils/code_generator.py::CodeGenerator._validate_shell_code`: writes
the code to a temp file unconditionally, runs `bash -n` on it, and judges
validity by the exit code; a raised exception yields
`(False, "Shell验证错误: ...")`.  There is no empty-input check. -/
def _validate_shell_code (tc : Toolchain) (code : String) : Bool × String :=
  match tc.bash_syntax_check code with
  | .ok r => if r.returncode = 0 then (true, "Shell脚本语法正确") else (false, r.stderr)
  | .error e => (false, "Shell验证错误: " ++ e)

/-- `utils/code_generator.py::CodeGenerator._validate_markdown` fence
counter: toggles the in-code-block flag on each line whose stripped form
starts with a backtick fence and counts completed pairs. -/
def fenceFold : List (List Char) → Bool → Nat
  | [], _ => 0
  | l :: ls, inb =>
    if isPrefixOfL "```".data (pyStrip l) then
      (if inb then 1 else 0) + fenceFold ls (!inb)
    else fenceFold ls inb

/-- `utils/code_generator.py::CodeGenerator._validate_markdown`. -/
def _validate_markdown (code : String) : Bool × String :=
  if ¬ (strOccurs "#" code || strOccurs "##" code) then
    (false, "Markdown文档缺少标题结构")
  else if fenceFold (splitNL code.data) false = 0 then
    (true, "Markdown文档格式正确（建议添加代码块）")
  else (true, "Markdown文档格式正确")

/-- `utils/code_generator.py::CodeGenerator.validate_code` language
dispatch. -/
def validate_code (tc : Toolchain) (code language : String) : Bool × String :=
  if language = "python" then tc.python_check code
  else if language = "go" then tc.go_build code
  else if language = "yaml" then tc.yaml_safe_load code
  else if language = "shell" then _validate_shell_code tc code
  else if language = "markdown" then _validate_markdown code
  else (true, "Language validation not implemented")

/-- `agents/operations_agent.py::OperationsAgent.validate_shell_script`:
delegates to `validate_code(script, "shell")`. -/
def validate_shell_script (tc : Toolchain) (script : String) : Bool × String :=
  validate_code tc script "shell"

/-- A toolchain whose `bash -n` reports exit code 0 on the empty file —
what the real `bash` does. -/
def empty_ok_toolchain : Toolchain :=
  ⟨fun _ => (true, ""), fun _ => (true, ""), fun _ => (true, ""),
   fun _ => .ok ⟨0, ""⟩⟩


/-- `agents/monitoring_agent.py::MonitoringAgent.generate_prometheus_config`:
returns one flat string (the rendered f-string template, written here as
a concatenation split at the interpolation points and at the
claim-relevant constants).  It is not a keyed bundle. -/
def generate_prometheus_config (service_name : String) : String :=
  "# Prometheus配置示例 - " ++ (
  service_name ++ (
  "监控\n\nglobal:\n  " ++ (
  "scrape_interval: 15s" ++ (
  "\n  " ++ (
  "evaluation_interval: 15s" ++ (
  "\n\nrule_files:\n  - \"alert_rules.yml\"\n\nalerting:\n  alertmanagers:\n    - static_configs:\n        - targets:\n          - alertmanager:9093\n\nscrape_configs:\n  # " ++ (
  service_name ++ (
  "服务监控\n  - job_name: \x27" ++ (
  service_name ++ (
  "\x27\n    static_configs:\n      - targets: [\x27" ++ (
  service_name ++ (
  ":8080" ++ (
  "\x27]\n    metrics_path: \x27/metrics\x27\n    " ++ (
  "scrape_interval: 10s" ++ (
  "\n    scrape_timeout: 5s\n    \n  # Node Exporter监控\n  - job_name: \x27node_exporter\x27\n    static_configs:\n      - targets: [\x27node-exporter:9100\x27]\n    \n  # Docker监控\n  - job_name: \x27docker\x27\n    static_configs:\n      - targets: [\x27cadvisor" ++ (
  ":8080" ++ (
  "\x27]\n\n# 告警规则示例\n" ++ (
  "alert_rules.yml:" ++ (
  "\n  groups:\n    - name: " ++ (
  service_name ++ (
  "_alerts\n      rules:\n        - " ++ (
  "alert: HighErrorRate" ++ (
  "\n          expr: rate(http_requests_total\x7bstatus=~\"5..\", service=\"" ++ (
  service_name ++ (
  "\"\x7d[5m]) " ++ (
  "> 0.1" ++ (
  "\n          " ++ (
  "for: 5m" ++ (
  "\n          labels:\n            severity: critical\n          annotations:\n            summary: \"High error rate detected for " ++ (
  service_name ++ (
  "\"\n            description: \"Error rate is \x7b $value \x7d errors per second\"\n        \n        - " ++ (
  "alert: HighResponseTime" ++ (
  "\n          expr: histogram_quantile(0.95, rate(http_request_duration_seconds_bucket\x7bservice=\"" ++ (
  service_name ++ (
  "\"\x7d[5m])) " ++ (
  "> 1" ++ (
  "\n          " ++ (
  "for: 5m" ++ (
  "\n          labels:\n            severity: warning\n          annotations:\n            summary: \"High response time for " ++ (
  service_name ++ (
  "\"\n            description: \"95th percentile response time is \x7b $value \x7d seconds\"\n        \n        - " ++ (
  "alert: ServiceDown" ++ (
  "\n          expr: up\x7bservice=\"" ++ (
  service_name ++ (
  "\"\x7d " ++ (
  "== 0" ++ (
  "\n          " ++ (
  "for: 1m" ++ (
  "\n          labels:\n            severity: critical\n          annotations:\n            summary: \"Service " ++ (
  service_name ++ (
  " is down\"\n            description: \"Service " ++ (
  service_name ++ (
  " has been down for more than 1 minute\" ")))))))))))))))))))))))))))))))))))))))))))))))))))))

/-- The literal Jinja conditional embedded (as text) in the `web_server`
playbook template's package and service tasks:
`\x7b\x7b \x27httpd\x27 if target_os == \x27centos\x27 else \x27apache2\x27 \x7d\x7d`. -/
def web_package_jinja : String := "\x7b\x7b \x27httpd\x27 if target_os == \x27centos\x27 else \x27apache2\x27 \x7d\x7d"

/-- The fixed body of the `web_server` playbook template after the
comment-header interpolation — identical for every `target_os`. -/
def web_server_playbook_body : String :=
  "\n- name: 部署Web服务器\n  hosts: webservers\n  become: yes\n  vars:\n    http_port: 80\n    https_port: 443\n    doc_root: /var/www/html\n    server_name: example.com\n    \n  tasks:\n    - name: 安装Web服务器\n      package:\n        name: \"" ++ (
  web_package_jinja ++ (
  "\"\n        state: present\n      when: target_os in [\x27centos\x27, \x27ubuntu\x27]\n    \n    - name: 启动并启用Web服务器\n      service:\n        name: \"" ++ (
  web_package_jinja ++ (
  "\"\n        state: started\n        enabled: yes\n    \n    - name: 创建网站根目录\n      file:\n        path: \"\x7b\x7b doc_root \x7d\x7d\"\n        state: directory\n        mode: \x270755\x27\n    \n    - name: 创建默认页面\n      copy:\n        content: |\n          <html>\n          <head><title>欢迎来到 \x7b\x7b server_name \x7d\x7d</title></head>\n          <body><h1>服务器部署成功！</h1></body>\n          </html>\n        dest: \"\x7b\x7b doc_root \x7d\x7d/index.html\"\n    \n    - name: 配置防火墙\n      firewalld:\n        port: \"\x7b\x7b http_port \x7d\x7d/tcp\"\n        permanent: yes\n        state: enabled\n      when: target_os == \x27centos\x27\n    \n    - name: 重启防火墙\n      service:\n        name: firewalld\n        state: restarted\n      when: target_os == \x27centos\x27\n  \n  handlers:\n    - name: 重启Web服务器\n      service:\n        name: \"" ++ (
  web_package_jinja ++ (
  "\"\n        state: restarted"))))))

/-- The fixed body of the `database_server` playbook template. -/
def database_server_playbook_body : String :=
  "\n- name: 部署MySQL数据库服务器\n  hosts: databases\n  become: yes\n  vars:\n    mysql_root_password: \"your_secure_password\"\n    mysql_database: \"webapp_db\"\n    mysql_user: \"webapp_user\"\n    mysql_user_password: \"user_password\"\n    \n  tasks:\n    - name: 安装MySQL服务器\n      package:\n        name: \"\x7b\x7b \x27mariadb-server\x27 if target_os == \x27centos\x27 else \x27mysql-server\x27 \x7d\x7d\"\n        state: present\n    \n    - name: 启动MySQL服务\n      service:\n        name: \"\x7b\x7b \x27mariadb\x27 if target_os == \x27centos\x27 else \x27mysql\x27 \x7d\x7d\"\n        state: started\n        enabled: yes\n    \n    - name: 安装MySQL客户端\n      package:\n        name: \"\x7b\x7b \x27mariadb\x27 if target_os == \x27centos\x27 else \x27mysql-client\x27 \x7d\x7d\"\n        state: present\n    \n    - name: 设置MySQL root密码\n      mysql_user:\n        name: root\n        password: \"\x7b\x7b mysql_root_password \x7d\x7d\"\n        host: localhost\n        check_implicit_admin: yes\n    \n    - name: 创建应用数据库\n      mysql_db:\n        name: \"\x7b\x7b mysql_database \x7d\x7d\"\n        state: present\n    \n    - name: 创建数据库用户\n      mysql_user:\n        name: \"\x7b\x7b mysql_user \x7d\x7d\"\n        password: \"\x7b\x7b mysql_user_password \x7d\x7d\"\n        priv: \"\x7b\x7b mysql_database \x7d\x7d.*:ALL\"\n        host: \"%\"\n        state: present\n    \n    - name: 配置MySQL远程访问\n      copy:\n        content: |\n          [mysqld]\n          bind-address = 0.0.0.0\n        dest: /etc/my.cnf.d/bind-address.cnf\n      notify: 重启MySQL服务\n  \n  handlers:\n    - name: 重启MySQL服务\n      service:\n        name: \"\x7b\x7b \x27mariadb\x27 if target_os == \x27centos\x27 else \x27mysql\x27 \x7d\x7d\"\n        state: restarted"

/-- The fixed body of the `docker_install` playbook template. -/
def docker_install_playbook_body : String :=
  "\n- name: 安装Docker\n  hosts: all\n  become: yes\n  vars:\n    docker_users:\n      - \"\x7b\x7b ansible_user \x7d\x7d\"\n    \n  tasks:\n    - name: 安装必要的包\n      package:\n        name:\n          - yum-utils\n          - device-mapper-persistent-data\n          - lvm2\n        state: present\n      when: target_os == \x27centos\x27\n    \n    - name: 添加Docker仓库\n      yum_repository:\n        name: docker-ce-stable\n        description: Docker CE Stable\n        baseurl: https://download.docker.com/linux/centos/7/x86_64/stable/\n        enabled: yes\n        gpgcheck: yes\n        gpgkey: https://download.docker.com/linux/centos/gpg\n      when: target_os == \x27centos\x27\n    \n    - name: 安装Docker\n      package:\n        name: docker-ce\n        state: present\n      when: target_os == \x27centos\x27\n    \n    - name: 启动Docker服务\n      service:\n        name: docker\n        state: started\n        enabled: yes\n    \n    - name: 添加用户到docker组\n      user:\n        name: \"\x7b\x7b item \x7d\x7d\"\n        groups: docker\n        append: yes\n      loop: \"\x7b\x7b docker_users \x7d\x7d\"\n    \n    - name: 安装Docker Compose\n      get_url:\n        url: https://github.com/docker/compose/releases/download/1.29.2/docker-compose-Linux-x86_64\n        dest: /usr/local/bin/docker-compose\n        mode: \x270755\x27\n    \n    - name: 验证Docker安装\n      command: docker --version\n      register: docker_version\n      changed_when: false\n    \n    - name: 显示Docker版本\n      debug:\n        msg: \"Docker版本: \x7b\x7b docker_version.stdout \x7d\x7d\" "

/-- `agents/ansible_agent.py::AnsibleAgent.generate_ansible_playbook`:
`playbooks.get(task_type, "请指定有效的任务类型")` over the three literal
f-string templates, each interpolating `target_os` only in its leading
comment line. -/
def generate_ansible_playbook (task_type : String) (target_os : String := "centos") :
    String :=
  if task_type = "web_server" then
    "---\n# Web服务器部署Playbook - " ++ (target_os ++ web_server_playbook_body)
  else if task_type = "database_server" then
    "---\n# 数据库服务器部署Playbook - " ++ (target_os ++ database_server_playbook_body)
  else if task_type = "docker_install" then
    "---\n# Docker安装Playbook - " ++ (target_os ++ docker_install_playbook_body)
  else "请指定有效的任务类型"

/-- Evaluation of the Jinja conditional
`\x7b\x7b \x27httpd\x27 if target_os == \x27centos\x27 else \x27apache2\x27 \x7d\x7d`
carried in the generated playbook, under Jinja semantics with the
Ansible-side variable `target_os` bound to the given value. -/
def jinja_package_name (target_os : String) : String :=
  if target_os = "centos" then "httpd" else "apache2"

/-- Python semantics of subscripting a `str` with a `str` key
(`str.__getitem__` accepts only integers and slices): always a
`TypeError`, whatever the string and key are.  This is the operation the
claim's access `generate_prometheus_config("svc")["alert_rules.yml"]`
performs on the flat string the function actually returns. -/
def py_str_getitem (_s _key : String) : Except String String :=
  .error "TypeError: string indices must be integers"

/-- Segment of the inventory f-string template before the first
`environment` interpolation. -/
def inv_A : String := "# Ansible Inventory文件 - "

/-- Segment of the inventory template between the header interpolation and
the `[<environment>:children]` interpolation. -/
def inv_B : String :=
  "环境\n\n# Web服务器组\n[webservers]\nweb01.example.com ansible_user=ubuntu ansible_port=22\nweb02.example.com ansible_user=ubuntu ansible_port=22\n\n# 数据库服务器组\n[databases]\ndb01.example.com ansible_user=centos ansible_port=22\ndb02.example.com ansible_user=centos ansible_port=22\n\n# 应用服务器组\n[appservers]\napp01.example.com ansible_user=ubuntu ansible_port=22\napp02.example.com ansible_user=ubuntu ansible_port=22\n\n# 监控服务器组\n[monitoring]\nmon01.example.com ansible_user=centos ansible_port=22\n\n# 负载均衡器组\n[loadbalancers]\nlb01.example.com ansible_user=ubuntu ansible_port=22\n\n# 组合组\n[webservers:vars]\nansible_python_interpreter=/usr/bin/python3\nnginx_version=1.18.0\n\n[databases:vars]\nansible_python_interpreter=/usr/bin/python3\nmysql_version=8.0\n\n[appservers:vars]\nansible_python_interpreter=/usr/bin/python3\njava_version=11\n\n# 环境变量\n["

/-- Segment of the inventory template from `:children]` (listing the five
bare group names) up to the `[<environment>:vars]` interpolation. -/
def inv_C : String := ":children]\nwebservers\ndatabases\nappservers\nmonitoring\nloadbalancers\n\n["

/-- Segment of the inventory template from `:vars]` through `env=`. -/
def inv_D : String := ":vars]\nenv="

/-- Tail of the inventory template after the last interpolation, split
before its final apostrophe and newline. -/
def inv_E : String := "\nansible_ssh_common_args=\x27-o StrictHostKeyChecking=no"

/-- The closing apostrophe of the inventory template's last line. -/
def inv_Q : String := "\x27"

/-- The trailing newline of the inventory template. -/
def inv_NL : String := "\n"

/-- `agents/ansible_agent.py::AnsibleAgent.generate_inventory_file`: the
rendered f-string template, written as a concatenation split at the four
`environment` interpolation points (and at the final apostrophe/newline,
which the validator's outer `strip()` removes). -/
def generate_inventory_file (environment : String := "production") : String :=
  inv_A ++ (environment ++ (inv_B ++ (environment ++ (inv_C ++ (environment ++
    (inv_D ++ (environment ++ (inv_E ++ (inv_Q ++ inv_NL)))))))))

/-- The `for line in lines` loop of the `"ini"` branch of
`agents/ansible_agent.py::AnsibleAgent.validate_ansible_code`: strips each
line, skips empty/comment/section-header lines, and fails on the first
remaining line lacking an `=`. -/
def checkIniLines : List (List Char) → Bool × String
  | [] => (true, "Inventory文件格式正确")
  | line :: rest =>
    if pyStrip line ≠ [] ∧ isPrefixOfL ['#'] (pyStrip line) = false ∧
        isPrefixOfL ['['] (pyStrip line) = false then
      if '=' ∉ pyStrip line then
        (false, ⟨"Inventory文件格式错误: ".data ++ pyStrip line⟩)
      else checkIniLines rest
    else checkIniLines rest

/-- Whether one line survives the `"ini"` scan of `validate_ansible_code`
without triggering the error return. -/
def iniLinePasses (line : List Char) : Bool :=
  if pyStrip line ≠ [] ∧ isPrefixOfL ['#'] (pyStrip line) = false ∧
      isPrefixOfL ['['] (pyStrip line) = false then
    decide ('=' ∈ pyStrip line)
  else true

/-- `agents/ansible_agent.py::AnsibleAgent.validate_ansible_code`: the
`yaml` branch delegates to `CodeGenerator.validate_code`; the `ini`
branch runs the line scan over `code.strip().split('\n')`; other tags
are accepted with a stock message. -/
def validate_ansible_code (tc : Toolchain) (code : String)
    (code_type : String := "yaml") : Bool × String :=
  if code_type = "yaml" then validate_code tc code "yaml"
  else if code_type = "ini" then checkIniLines (splitNL (pyStrip code.data))
  else (true, "代码类型验证暂未实现")


-- ===== Theorems =====

theorem occursIn_append_right (sub a b : List Char)
    (h : occursIn sub b = true) : occursIn sub (a ++ b) = true := by
  induction a with
  | nil => simpa using h
  | cons x t ih => simp [occursIn, ih]

theorem isPrefixOfL_self_append (sub b : List Char) :
    isPrefixOfL sub (sub ++ b) = true := by
  induction sub with
  | nil => rfl
  | cons x t ih => simp [isPrefixOfL, ih]

theorem occursIn_self_append (sub b : List Char) :
    occursIn sub (sub ++ b) = true := by
  cases sub with
  | nil =>
    cases b with
    | nil => rfl
    | cons y u => simp [occursIn, isPrefixOfL]
  | cons s ss =>
    have h := isPrefixOfL_self_append (s :: ss) b
    simp only [List.cons_append] at h
    simp [occursIn, h]

theorem strOccurs_append_right (sub a b : String)
    (h : strOccurs sub b = true) : strOccurs sub (a ++ b) = true := by
  cases a with
  | mk da =>
    cases b with
    | mk db =>
      simpa [strOccurs, String.data] using occursIn_append_right _ da db h

theorem strOccurs_self_append (sub b : String) :
    strOccurs sub (sub ++ b) = true := by
  cases sub with
  | mk ds =>
    cases b with
    | mk db =>
      simpa [strOccurs, String.data] using occursIn_self_append ds db

theorem pyStripRight_eq_nil_iff (m : List Char) :
    pyStripRight m = [] ↔ m.all pyIsSpace = true := by
  unfold pyStripRight
  rw [List.reverse_eq_nil_iff, List.dropWhile_eq_nil_iff, List.all_eq_true]
  constructor
  · intro h c hc
    exact h c (List.mem_reverse.mpr hc)
  · intro h c hc
    exact h c (List.mem_reverse.mp hc)

theorem all_pyStripLeft_iff (l : List Char) :
    (pyStripLeft l).all pyIsSpace = true ↔ l.all pyIsSpace = true := by
  unfold pyStripLeft
  rw [List.all_eq_true, List.all_eq_true]
  constructor
  · intro h c hc
    rcases (List.takeWhile_append_dropWhile (p := pyIsSpace) (l := l)) ▸ hc with h'
    rcases List.mem_append.mp h' with h1 | h2
    · exact List.mem_takeWhile_imp h1
    · exact h c h2
  · intro h c hc
    exact h c (List.dropWhile_sublist (p := pyIsSpace) (l := l) |>.subset hc)

theorem pyStrip_eq_nil_iff (l : List Char) :
    pyStrip l = [] ↔ l.all pyIsSpace = true := by
  unfold pyStrip
  rw [pyStripRight_eq_nil_iff, all_pyStripLeft_iff]

/-- C8: `validate_agent_input` is false exactly on empty, whitespace-only,
or over-2000-character strings: it rejects every string that is empty, all
whitespace, or longer than 2000 characters, and accepts every other
string. -/
theorem c8_validate_agent_input (s : String) :
    ((s.data = [] ∨ s.data.all pyIsSpace = true ∨ s.data.length > 2000) →
      validate_agent_input s = false) ∧
    (s.data ≠ [] → s.data.all pyIsSpace = false → s.data.length ≤ 2000 →
      validate_agent_input s = true) := by
  constructor
  · rintro (h | h | h) <;> unfold validate_agent_input
    · simp [h]
    · simp [(pyStrip_eq_nil_iff s.data).mpr h]
    · by_cases h0 : (s.data = [] || pyStrip s.data = []) = true
      · simp [h0]
      · rw [if_neg h0, if_pos h]
  · intro h1 h2 h3
    unfold validate_agent_input
    have hs : ¬ pyStrip s.data = [] := by
      rw [pyStrip_eq_nil_iff, h2]; simp
    have h0 : ¬ (s.data = [] || pyStrip s.data = []) = true := by
      simp [h1, hs]
    rw [if_neg h0, if_neg (Nat.not_lt.mpr h3)]

/-- C8 witness: concrete evaluations — the empty string, a whitespace-only
string, a 2001-character string are rejected; a 50-character request is
accepted. -/
theorem c8_validate_agent_input_witness :
    validate_agent_input "" = false ∧
    validate_agent_input "  \t " = false ∧
    validate_agent_input ⟨List.replicate 2001 'a'⟩ = false ∧
    validate_agent_input "deploy the web service with nginx and supervisor!" = true := by
  refine ⟨(c8_validate_agent_input "").1 (Or.inl rfl), ?_, ?_, ?_⟩
  · exact (c8_validate_agent_input "  \t ").1 (Or.inr (Or.inl (by decide)))
  · refine (c8_validate_agent_input ⟨List.replicate 2001 'a'⟩).1 (Or.inr (Or.inr ?_))
    show (List.replicate 2001 'a').length > 2000
    simp
  · exact (c8_validate_agent_input
      "deploy the web service with nginx and supervisor!").2
      (by decide) (by decide) (by decide)

theorem add_to_history_eq (h : List Turn) (r c t : String) :
    add_to_history h r c t = last20 (h ++ [⟨r, c, t⟩]) := by
  unfold add_to_history last20
  by_cases hl : (h ++ [(⟨r, c, t⟩ : Turn)]).length > 20
  · simp only [hl, if_true]
  · simp only [hl, if_false, Nat.sub_eq_zero_of_le (Nat.le_of_not_lt hl),
      List.drop_zero]

theorem last20_length_le (l : List Turn) : (last20 l).length ≤ 20 := by
  simp only [last20, List.length_drop]
  omega

theorem last20_of_short {l : List Turn} (h : l.length ≤ 20) : last20 l = l := by
  unfold last20
  rw [Nat.sub_eq_zero_of_le h, List.drop_zero]

theorem last20_append_of_long {x : List Turn} (y : List Turn)
    (hx : 20 ≤ x.length) : last20 (y ++ x) = last20 x := by
  unfold last20
  rw [List.length_append]
  have : y.length + x.length - 20 = y.length + (x.length - 20) := by omega
  rw [this, List.drop_append]

theorem last20_append_last20 (a b : List Turn) :
    last20 (last20 a ++ b) = last20 (a ++ b) := by
  by_cases h20 : a.length ≤ 20
  · rw [last20_of_short h20]
  · have hsplit : a = a.take (a.length - 20) ++ a.drop (a.length - 20) :=
      (List.take_append_drop _ _).symm
    have hlen : 20 ≤ (a.drop (a.length - 20) ++ b).length := by
      simp only [List.length_append, List.length_drop]
      omega
    calc last20 (last20 a ++ b)
        = last20 (a.drop (a.length - 20) ++ b) := rfl
      _ = last20 (a.take (a.length - 20) ++ (a.drop (a.length - 20) ++ b)) :=
          (last20_append_of_long _ hlen).symm
      _ = last20 (a ++ b) := by
          rw [← List.append_assoc, List.take_append_drop]

theorem foldl_add_to_history (ts : List Turn) :
    ∀ h : List Turn, h.length ≤ 20 →
      ts.foldl (fun h t => add_to_history h t.role t.content t.timestamp) h =
        last20 (h ++ ts) := by
  induction ts with
  | nil =>
    intro h hle
    simp [last20_of_short hle]
  | cons t ts ih =>
    intro h hle
    rw [List.foldl_cons, ih _ (by rw [add_to_history_eq]; exact last20_length_le _),
        add_to_history_eq, last20_append_last20, List.append_assoc]
    rfl

theorem run_history_eq (turns : List Turn) : run_history turns = last20 turns := by
  unfold run_history
  rw [foldl_add_to_history turns [] (by simp), List.nil_append]

/-- C3: the conversation history is bounded by 20 turns — replaying any
sequence of `add_to_history` calls from a fresh agent leaves at most 20
entries, and replaying exactly 25 turns leaves exactly the last 20 of them
in their original relative order (the first 5 are evicted). -/
theorem c3_history_bound :
    (∀ turns : List Turn, (run_history turns).length ≤ 20) ∧
    (∀ turns : List Turn, turns.length = 25 →
      run_history turns = turns.drop 5) := by
  constructor
  · intro ts
    rw [run_history_eq]
    exact last20_length_le _
  · intro ts h
    rw [run_history_eq]
    unfold last20
    rw [h]

/-- C3 witness: 25 concrete numbered turns collapse to exactly the final
20, in order. -/
theorem c3_history_bound_witness :
    run_history ((List.range 25).map fun i => ⟨"user", toString i, ""⟩) =
      ((List.range 25).map fun i => ⟨"user", toString i, ""⟩).drop 5 :=
  c3_history_bound.2 _ (by simp)

/-- C9: `get_agent_config` on any persona key outside
{operations, go, monitoring, ansible} returns exactly the operations
record, for every environment. -/
theorem c9_unknown_persona_fallback (env : Env) (t : String)
    (h1 : t ≠ "operations") (h2 : t ≠ "go") (h3 : t ≠ "monitoring")
    (h4 : t ≠ "ansible") :
    get_agent_config env t = get_agent_config env "operations" := by
  unfold get_agent_config agent_configs
  simp [h1, h2, h3, h4]

/-- C9 witness: the spec's own example key `"unknown_type"`. -/
theorem c9_unknown_persona_fallback_witness :
    get_agent_config {} "unknown_type" = get_agent_config {} "operations" :=
  c9_unknown_persona_fallback {} "unknown_type" (by decide) (by decide)
    (by decide) (by decide)

/-- C1: evaluation of the code at the claim's bigmodel.cn scenario.
`_get_provider_config` hard-codes the OpenAI base URL (the
`OPENAI_BASE_URL` variable is ignored: changing it never changes the
config), so the configured base URL never indicates bigmodel.cn, and
`validate_provider_config` rejects the zhipu-format key unconditionally —
there is no vendor-specific relaxation in the code, contradicting the
claim and the repository's own tests.  The remaining conjuncts confirm
the claim's uncontested parts: empty-key rejection, the `sk-ant-` check
for claude, and the length-10 check for qwen. -/
theorem c1_no_bigmodel_relaxation :
    (∀ burl : String,
      _get_provider_config { zhipu_env with OPENAI_BASE_URL := burl } "test" "openai" =
        _get_provider_config zhipu_env "test" "openai") ∧
    (_get_provider_config zhipu_env "test" "openai").base_url =
      "https://api.openai.com/v1" ∧
    strOccurs "bigmodel.cn" (_get_provider_config zhipu_env "test" "openai").base_url
      = false ∧
    validate_provider_config "openai" (_get_provider_config zhipu_env "test" "openai") =
      (false, "OpenAI API密钥格式不正确") ∧
    validate_provider_config "openai"
      (_get_provider_config { zhipu_env with OPENAI_API_KEY := "" } "test" "openai") =
      (false, "openai API密钥未设置") ∧
    validate_provider_config "claude"
      (_get_provider_config { CLAUDE_API_KEY := "bad-key" } "test" "claude") =
      (false, "Claude API密钥格式不正确") ∧
    validate_provider_config "claude"
      (_get_provider_config { CLAUDE_API_KEY := "sk-ant-abc123" } "test" "claude") =
      (true, "配置验证通过") ∧
    validate_provider_config "qwen"
      (_get_provider_config { QWEN_API_KEY := "short" } "test" "qwen") =
      (false, "Qwen API密钥格式不正确") ∧
    validate_provider_config "qwen"
      (_get_provider_config { QWEN_API_KEY := "长长长长长长长长长长长" } "test" "qwen") =
      (true, "配置验证通过") :=
  ⟨fun _ => rfl, rfl, by decide, by decide, by decide, by decide, by decide,
   by decide, by decide⟩

theorem mem_add_to_history {e : Turn} {h : List Turn} {r c t : String}
    (he : e ∈ add_to_history h r c t) : e ∈ h ++ [(⟨r, c, t⟩ : Turn)] := by
  rw [add_to_history_eq] at he
  exact List.drop_subset _ _ he

/-- C6: `switch_provider` errors (`不支持的AI提供商`) on any name outside
{openai, claude, qwen}; on a supported name it succeeds, after which
`get_provider_info` reports the new provider, and the conversation
history is exactly the one held before the switch; in particular an
openai agent switched to claude and back reports each provider in turn
with its history intact. -/
theorem c6_switch_provider (env : Env) (ds : Bool) (s : AgentState) :
    (∀ new_provider : String,
      new_provider ≠ "openai" → new_provider ≠ "claude" → new_provider ≠ "qwen" →
        switch_provider env ds s new_provider =
          .error ("不支持的AI提供商: " ++ new_provider)) ∧
    (∀ new_provider : String,
      new_provider = "openai" ∨ new_provider = "claude" ∨ new_provider = "qwen" →
      ∃ s', switch_provider env ds s new_provider = .ok s' ∧
        (get_provider_info s').provider = new_provider ∧
        s'.conversation_history = s.conversation_history) ∧
    (∃ s₁ s₂, switch_provider env ds s "claude" = .ok s₁ ∧
      (get_provider_info s₁).provider = "claude" ∧
      switch_provider env ds s₁ "openai" = .ok s₂ ∧
      (get_provider_info s₂).provider = "openai" ∧
      s₂.conversation_history = s.conversation_history) := by
  refine ⟨?_, ?_, ?_⟩
  · intro p h1 h2 h3
    unfold switch_provider
    rw [if_pos ⟨h1, h2, h3⟩]
  · rintro p (rfl | rfl | rfl)
    · exact ⟨_, rfl, rfl, rfl⟩
    · exact ⟨_, rfl, rfl, rfl⟩
    · cases ds
      · exact ⟨_, rfl, rfl, rfl⟩
      · exact ⟨_, rfl, rfl, rfl⟩
  · exact ⟨_, _, rfl, rfl, rfl, rfl, rfl⟩

/-- C6 witness: a concrete openai-state with a two-turn history rejects
`"deepseek"`, and accepts the claude round trip. -/
theorem c6_switch_provider_witness :
    switch_provider {} true sample_state "deepseek" =
      .error ("不支持的AI提供商: " ++ "deepseek") ∧
    (∃ s', switch_provider {} true sample_state "claude" = .ok s' ∧
      (get_provider_info s').provider = "claude" ∧
      s'.conversation_history = sample_state.conversation_history) ∧
    (∃ s₁ s₂, switch_provider {} true sample_state "claude" = .ok s₁ ∧
      (get_provider_info s₁).provider = "claude" ∧
      switch_provider {} true s₁ "openai" = .ok s₂ ∧
      (get_provider_info s₂).provider = "openai" ∧
      s₂.conversation_history = sample_state.conversation_history) :=
  ⟨(c6_switch_provider {} true sample_state).1 "deepseek" (by decide) (by decide)
      (by decide),
   (c6_switch_provider {} true sample_state).2.1 "claude" (Or.inr (Or.inl rfl)),
   (c6_switch_provider {} true sample_state).2.2⟩

/-- C2: when the provider call raises an exception with message `boom` on
a validated input, `process_request` returns a string containing the
apology term `抱歉` and the substring `boom`, and the only assistant turn
the history gains is the error-template turn — no successful assistant
turn is recorded. -/
theorem c2_error_path (provider now : String) (st : List Turn) (input : String)
    (hp : provider = "openai" ∨ provider = "claude" ∨ provider = "qwen")
    (hv : validate_agent_input input = true) :
    strOccurs "抱歉" (process_request provider (.error "boom") now st input).1
      = true ∧
    strOccurs "boom" (process_request provider (.error "boom") now st input).1
      = true ∧
    ∀ e ∈ (process_request provider (.error "boom") now st input).2,
      e.role = "assistant" →
        e ∈ st ∨ e.content = "抱歉，处理您的请求时发生了错误：boom" := by
  have hgen : multi_generate_response provider (.error "boom") =
      "抱歉，处理您的请求时发生了错误：boom" := by
    rcases hp with rfl | rfl | rfl <;> rfl
  have hsan : sanitize_response "抱歉，处理您的请求时发生了错误：boom" =
      "抱歉，处理您的请求时发生了错误：boom" := by decide
  have hv' : ¬ (validate_agent_input input = false) := by simp [hv]
  refine ⟨?_, ?_, ?_⟩
  · simp only [process_request, if_neg hv', hgen, hsan]
    decide
  · simp only [process_request, if_neg hv', hgen, hsan]
    decide
  · intro e he hrole
    simp only [process_request, if_neg hv', hgen, hsan] at he
    rcases List.mem_append.mp (mem_add_to_history he) with h2 | h3
    · rcases List.mem_append.mp (mem_add_to_history h2) with h5 | h6
      · exact Or.inl h5
      · rcases List.mem_singleton.mp h6 with rfl
        have hcon : ("user" : String) = "assistant" := hrole
        exact absurd hcon (by decide)
    · rcases List.mem_singleton.mp h3 with rfl
      exact Or.inr rfl

/-- C2 witness: a fresh openai agent processing `"hi"` while the provider
raises `boom`. -/
theorem c2_error_path_witness :
    strOccurs "抱歉" (process_request "openai" (.error "boom") "" [] "hi").1
      = true ∧
    strOccurs "boom" (process_request "openai" (.error "boom") "" [] "hi").1
      = true ∧
    ∀ e ∈ (process_request "openai" (.error "boom") "" [] "hi").2,
      e.role = "assistant" →
        e ∈ ([] : List Turn) ∨
          e.content = "抱歉，处理您的请求时发生了错误：boom" :=
  c2_error_path "openai" "" [] "hi" (Or.inl rfl) (by decide)

/-- C7: evaluation of the code at the claim's failing input.  For the
empty script the code still invokes the shell toolchain (there is no
empty-input guard anywhere on the path
`validate_shell_script → validate_code → _validate_shell_code`), and
since `bash -n` exits 0 on an empty file (the hypothesis records this
external fact), the result is `(True, "Shell脚本语法正确")` — not the
`(False, message)` the claim and the repository's own test
(`tests/test_agents.py::test_invalid_input_handling`) require. -/
theorem c7_empty_script_invokes_shell (tc : Toolchain)
    (hbash : tc.bash_syntax_check "" = .ok ⟨0, ""⟩) :
    validate_shell_script tc "" = (true, "Shell脚本语法正确") := by
  unfold validate_shell_script validate_code _validate_shell_code
  rw [hbash]
  simp

/-- C7 witness: the concrete toolchain with `bash -n` exiting 0 on the
empty file. -/
theorem c7_empty_script_invokes_shell_witness :
    validate_shell_script empty_ok_toolchain "" = (true, "Shell脚本语法正确") :=
  c7_empty_script_invokes_shell empty_ok_toolchain rfl

theorem isPrefixOfL_append_right (p a b : List Char)
    (h : isPrefixOfL p a = true) : isPrefixOfL p (a ++ b) = true := by
  induction p generalizing a with
  | nil => rfl
  | cons x xs ih =>
    cases a with
    | nil => exact absurd h (by simp [isPrefixOfL])
    | cons y ys =>
      simp only [isPrefixOfL, Bool.and_eq_true] at h
      simp only [List.cons_append, isPrefixOfL, Bool.and_eq_true]
      exact ⟨h.1, ih ys h.2⟩

theorem occursIn_append_left (sub a b : List Char)
    (h : occursIn sub a = true) : occursIn sub (a ++ b) = true := by
  induction a with
  | nil =>
    have hsub : sub = [] := by
      cases sub with
      | nil => rfl
      | cons x xs => exact absurd h (by simp [occursIn, isPrefixOfL])
    subst hsub
    cases b with
    | nil => rfl
    | cons y ys => simp [occursIn, isPrefixOfL]
  | cons x t ih =>
    simp only [occursIn, Bool.or_eq_true] at h
    rcases h with h | h
    · simp only [List.cons_append, occursIn, Bool.or_eq_true]
      exact Or.inl (by simpa using isPrefixOfL_append_right sub (x :: t) b h)
    · simp only [List.cons_append, occursIn, Bool.or_eq_true]
      exact Or.inr (ih h)

theorem strOccurs_append_left (sub a b : String)
    (h : strOccurs sub a = true) : strOccurs sub (a ++ b) = true := by
  cases a with
  | mk da =>
    cases b with
    | mk db =>
      simpa [strOccurs, String.data] using occursIn_append_left _ da db h

/-- C4 (amended): `generate_prometheus_config` returns, for every service
name, a single flat string that contains the three alert names
`HighErrorRate`, `HighResponseTime`, `ServiceDown` with literal
thresholds `> 0.1`, `> 1`, `== 0` and `for:` windows `5m`, `5m`, `1m`
in its `alert_rules.yml:`-labelled section, alongside the Prometheus
settings: 15s scrape/eval intervals and a 10s per-service scrape interval
targeting port 8080. -/
theorem c4_prometheus_config_content (service_name : String) :
    strOccurs "scrape_interval: 15s" (generate_prometheus_config service_name)
      = true ∧
    strOccurs "evaluation_interval: 15s" (generate_prometheus_config service_name)
      = true ∧
    strOccurs ":8080" (generate_prometheus_config service_name) = true ∧
    strOccurs "scrape_interval: 10s" (generate_prometheus_config service_name)
      = true ∧
    strOccurs "alert_rules.yml:" (generate_prometheus_config service_name)
      = true ∧
    strOccurs "alert: HighErrorRate" (generate_prometheus_config service_name)
      = true ∧
    strOccurs "> 0.1" (generate_prometheus_config service_name) = true ∧
    strOccurs "for: 5m" (generate_prometheus_config service_name) = true ∧
    strOccurs "alert: HighResponseTime" (generate_prometheus_config service_name)
      = true ∧
    strOccurs "> 1" (generate_prometheus_config service_name) = true ∧
    strOccurs "alert: ServiceDown" (generate_prometheus_config service_name)
      = true ∧
    strOccurs "== 0" (generate_prometheus_config service_name) = true ∧
    strOccurs "for: 1m" (generate_prometheus_config service_name) = true := by
  refine ⟨?_, ?_, ?_, ?_, ?_, ?_, ?_, ?_, ?_, ?_, ?_, ?_, ?_⟩
  · unfold generate_prometheus_config
    apply strOccurs_append_right
    apply strOccurs_append_right
    apply strOccurs_append_right
    exact strOccurs_self_append _ _
  · unfold generate_prometheus_config
    apply strOccurs_append_right
    apply strOccurs_append_right
    apply strOccurs_append_right
    apply strOccurs_append_right
    apply strOccurs_append_right
    exact strOccurs_self_append _ _
  · unfold generate_prometheus_config
    apply strOccurs_append_right
    apply strOccurs_append_right
    apply strOccurs_append_right
    apply strOccurs_append_right
    apply strOccurs_append_right
    apply strOccurs_append_right
    apply strOccurs_append_right
    apply strOccurs_append_right
    apply strOccurs_append_right
    apply strOccurs_append_right
    apply strOccurs_append_right
    apply strOccurs_append_right
    exact strOccurs_self_append _ _
  · unfold generate_prometheus_config
    apply strOccurs_append_right
    apply strOccurs_append_right
    apply strOccurs_append_right
    apply strOccurs_append_right
    apply strOccurs_append_right
    apply strOccurs_append_right
    apply strOccurs_append_right
    apply strOccurs_append_right
    apply strOccurs_append_right
    apply strOccurs_append_right
    apply strOccurs_append_right
    apply strOccurs_append_right
    apply strOccurs_append_right
    apply strOccurs_append_right
    exact strOccurs_self_append _ _
  · unfold generate_prometheus_config
    apply strOccurs_append_right
    apply strOccurs_append_right
    apply strOccurs_append_right
    apply strOccurs_append_right
    apply strOccurs_append_right
    apply strOccurs_append_right
    apply strOccurs_append_right
    apply strOccurs_append_right
    apply strOccurs_append_right
    apply strOccurs_append_right
    apply strOccurs_append_right
    apply strOccurs_append_right
    apply strOccurs_append_right
    apply strOccurs_append_right
    apply strOccurs_append_right
    apply strOccurs_append_right
    apply strOccurs_append_right
    apply strOccurs_append_right
    exact strOccurs_self_append _ _
  · unfold generate_prometheus_config
    apply strOccurs_append_right
    apply strOccurs_append_right
    apply strOccurs_append_right
    apply strOccurs_append_right
    apply strOccurs_append_right
    apply strOccurs_append_right
    apply strOccurs_append_right
    apply strOccurs_append_right
    apply strOccurs_append_right
    apply strOccurs_append_right
    apply strOccurs_append_right
    apply strOccurs_append_right
    apply strOccurs_append_right
    apply strOccurs_append_right
    apply strOccurs_append_right
    apply strOccurs_append_right
    apply strOccurs_append_right
    apply strOccurs_append_right
    apply strOccurs_append_right
    apply strOccurs_append_right
    apply strOccurs_append_right
    apply strOccurs_append_right
    exact strOccurs_self_append _ _
  · unfold generate_prometheus_config
    apply strOccurs_append_right
    apply strOccurs_append_right
    apply strOccurs_append_right
    apply strOccurs_append_right
    apply strOccurs_append_right
    apply strOccurs_append_right
    apply strOccurs_append_right
    apply strOccurs_append_right
    apply strOccurs_append_right
    apply strOccurs_append_right
    apply strOccurs_append_right
    apply strOccurs_append_right
    apply strOccurs_append_right
    apply strOccurs_append_right
    apply strOccurs_append_right
    apply strOccurs_append_right
    apply strOccurs_append_right
    apply strOccurs_append_right
    apply strOccurs_append_right
    apply strOccurs_append_right
    apply strOccurs_append_right
    apply strOccurs_append_right
    apply strOccurs_append_right
    apply strOccurs_append_right
    apply strOccurs_append_right
    apply strOccurs_append_right
    exact strOccurs_self_append _ _
  · unfold generate_prometheus_config
    apply strOccurs_append_right
    apply strOccurs_append_right
    apply strOccurs_append_right
    apply strOccurs_append_right
    apply strOccurs_append_right
    apply strOccurs_append_right
    apply strOccurs_append_right
    apply strOccurs_append_right
    apply strOccurs_append_right
    apply strOccurs_append_right
    apply strOccurs_append_right
    apply strOccurs_append_right
    apply strOccurs_append_right
    apply strOccurs_append_right
    apply strOccurs_append_right
    apply strOccurs_append_right
    apply strOccurs_append_right
    apply strOccurs_append_right
    apply strOccurs_append_right
    apply strOccurs_append_right
    apply strOccurs_append_right
    apply strOccurs_append_right
    apply strOccurs_append_right
    apply strOccurs_append_right
    apply strOccurs_append_right
    apply strOccurs_append_right
    apply strOccurs_append_right
    apply strOccurs_append_right
    exact strOccurs_self_append _ _
  · unfold generate_prometheus_config
    apply strOccurs_append_right
    apply strOccurs_append_right
    apply strOccurs_append_right
    apply strOccurs_append_right
    apply strOccurs_append_right
    apply strOccurs_append_right
    apply strOccurs_append_right
    apply strOccurs_append_right
    apply strOccurs_append_right
    apply strOccurs_append_right
    apply strOccurs_append_right
    apply strOccurs_append_right
    apply strOccurs_append_right
    apply strOccurs_append_right
    apply strOccurs_append_right
    apply strOccurs_append_right
    apply strOccurs_append_right
    apply strOccurs_append_right
    apply strOccurs_append_right
    apply strOccurs_append_right
    apply strOccurs_append_right
    apply strOccurs_append_right
    apply strOccurs_append_right
    apply strOccurs_append_right
    apply strOccurs_append_right
    apply strOccurs_append_right
    apply strOccurs_append_right
    apply strOccurs_append_right
    apply strOccurs_append_right
    apply strOccurs_append_right
    apply strOccurs_append_right
    apply strOccurs_append_right
    exact strOccurs_self_append _ _
  · unfold generate_prometheus_config
    apply strOccurs_append_right
    apply strOccurs_append_right
    apply strOccurs_append_right
    apply strOccurs_append_right
    apply strOccurs_append_right
    apply strOccurs_append_right
    apply strOccurs_append_right
    apply strOccurs_append_right
    apply strOccurs_append_right
    apply strOccurs_append_right
    apply strOccurs_append_right
    apply strOccurs_append_right
    apply strOccurs_append_right
    apply strOccurs_append_right
    apply strOccurs_append_right
    apply strOccurs_append_right
    apply strOccurs_append_right
    apply strOccurs_append_right
    apply strOccurs_append_right
    apply strOccurs_append_right
    apply strOccurs_append_right
    apply strOccurs_append_right
    apply strOccurs_append_right
    apply strOccurs_append_right
    apply strOccurs_append_right
    apply strOccurs_append_right
    apply strOccurs_append_right
    apply strOccurs_append_right
    apply strOccurs_append_right
    apply strOccurs_append_right
    apply strOccurs_append_right
    apply strOccurs_append_right
    apply strOccurs_append_right
    apply strOccurs_append_right
    apply strOccurs_append_right
    apply strOccurs_append_right
    exact strOccurs_self_append _ _
  · unfold generate_prometheus_config
    apply strOccurs_append_right
    apply strOccurs_append_right
    apply strOccurs_append_right
    apply strOccurs_append_right
    apply strOccurs_append_right
    apply strOccurs_append_right
    apply strOccurs_append_right
    apply strOccurs_append_right
    apply strOccurs_append_right
    apply strOccurs_append_right
    apply strOccurs_append_right
    apply strOccurs_append_right
    apply strOccurs_append_right
    apply strOccurs_append_right
    apply strOccurs_append_right
    apply strOccurs_append_right
    apply strOccurs_append_right
    apply strOccurs_append_right
    apply strOccurs_append_right
    apply strOccurs_append_right
    apply strOccurs_append_right
    apply strOccurs_append_right
    apply strOccurs_append_right
    apply strOccurs_append_right
    apply strOccurs_append_right
    apply strOccurs_append_right
    apply strOccurs_append_right
    apply strOccurs_append_right
    apply strOccurs_append_right
    apply strOccurs_append_right
    apply strOccurs_append_right
    apply strOccurs_append_right
    apply strOccurs_append_right
    apply strOccurs_append_right
    apply strOccurs_append_right
    apply strOccurs_append_right
    apply strOccurs_append_right
    apply strOccurs_append_right
    apply strOccurs_append_right
    apply strOccurs_append_right
    apply strOccurs_append_right
    apply strOccurs_append_right
    exact strOccurs_self_append _ _
  · unfold generate_prometheus_config
    apply strOccurs_append_right
    apply strOccurs_append_right
    apply strOccurs_append_right
    apply strOccurs_append_right
    apply strOccurs_append_right
    apply strOccurs_append_right
    apply strOccurs_append_right
    apply strOccurs_append_right
    apply strOccurs_append_right
    apply strOccurs_append_right
    apply strOccurs_append_right
    apply strOccurs_append_right
    apply strOccurs_append_right
    apply strOccurs_append_right
    apply strOccurs_append_right
    apply strOccurs_append_right
    apply strOccurs_append_right
    apply strOccurs_append_right
    apply strOccurs_append_right
    apply strOccurs_append_right
    apply strOccurs_append_right
    apply strOccurs_append_right
    apply strOccurs_append_right
    apply strOccurs_append_right
    apply strOccurs_append_right
    apply strOccurs_append_right
    apply strOccurs_append_right
    apply strOccurs_append_right
    apply strOccurs_append_right
    apply strOccurs_append_right
    apply strOccurs_append_right
    apply strOccurs_append_right
    apply strOccurs_append_right
    apply strOccurs_append_right
    apply strOccurs_append_right
    apply strOccurs_append_right
    apply strOccurs_append_right
    apply strOccurs_append_right
    apply strOccurs_append_right
    apply strOccurs_append_right
    apply strOccurs_append_right
    apply strOccurs_append_right
    apply strOccurs_append_right
    apply strOccurs_append_right
    apply strOccurs_append_right
    apply strOccurs_append_right
    exact strOccurs_self_append _ _
  · unfold generate_prometheus_config
    apply strOccurs_append_right
    apply strOccurs_append_right
    apply strOccurs_append_right
    apply strOccurs_append_right
    apply strOccurs_append_right
    apply strOccurs_append_right
    apply strOccurs_append_right
    apply strOccurs_append_right
    apply strOccurs_append_right
    apply strOccurs_append_right
    apply strOccurs_append_right
    apply strOccurs_append_right
    apply strOccurs_append_right
    apply strOccurs_append_right
    apply strOccurs_append_right
    apply strOccurs_append_right
    apply strOccurs_append_right
    apply strOccurs_append_right
    apply strOccurs_append_right
    apply strOccurs_append_right
    apply strOccurs_append_right
    apply strOccurs_append_right
    apply strOccurs_append_right
    apply strOccurs_append_right
    apply strOccurs_append_right
    apply strOccurs_append_right
    apply strOccurs_append_right
    apply strOccurs_append_right
    apply strOccurs_append_right
    apply strOccurs_append_right
    apply strOccurs_append_right
    apply strOccurs_append_right
    apply strOccurs_append_right
    apply strOccurs_append_right
    apply strOccurs_append_right
    apply strOccurs_append_right
    apply strOccurs_append_right
    apply strOccurs_append_right
    apply strOccurs_append_right
    apply strOccurs_append_right
    apply strOccurs_append_right
    apply strOccurs_append_right
    apply strOccurs_append_right
    apply strOccurs_append_right
    apply strOccurs_append_right
    apply strOccurs_append_right
    apply strOccurs_append_right
    apply strOccurs_append_right
    exact strOccurs_self_append _ _

/-- C4 counterexample: the claim's bundle access
`generate_prometheus_config("svc")["alert_rules.yml"]` cannot yield an
entry — the function returns a flat `str`, and subscripting a `str` with
a `str` key raises `TypeError` in Python. -/
theorem c4_no_bundle_counterexample :
    ¬ ∃ entry : String,
      py_str_getitem (generate_prometheus_config "svc") "alert_rules.yml" =
        Except.ok entry := by
  rintro ⟨e, he⟩
  simp [py_str_getitem] at he

/-- C5 (amended): the `web_server` playbook differs across target OSes
only in its comment header: for every `target_os` the document is the
fixed body prefixed by the interpolated header, the package/service task
name is the literal Jinja conditional choosing `httpd`/`apache2` (both
names appear as text in every output), and that conditional evaluates—
under the Ansible-side variable `target_os`—to `apache2` for `ubuntu` and
`httpd` for `centos`. -/
theorem c5_web_server_playbook (target_os : String) :
    generate_ansible_playbook "web_server" target_os =
      "---\n# Web服务器部署Playbook - " ++ (target_os ++ web_server_playbook_body) ∧
    strOccurs web_package_jinja (generate_ansible_playbook "web_server" target_os)
      = true ∧
    strOccurs "apache2" (generate_ansible_playbook "web_server" target_os)
      = true ∧
    strOccurs "httpd" (generate_ansible_playbook "web_server" target_os)
      = true ∧
    jinja_package_name "ubuntu" = "apache2" ∧
    jinja_package_name "centos" = "httpd" := by
  refine ⟨rfl, ?_, ?_, ?_, rfl, rfl⟩
  · unfold generate_ansible_playbook
    rw [if_pos rfl]
    apply strOccurs_append_right
    apply strOccurs_append_right
    unfold web_server_playbook_body
    apply strOccurs_append_right
    exact strOccurs_self_append _ _
  · unfold generate_ansible_playbook
    rw [if_pos rfl]
    apply strOccurs_append_right
    apply strOccurs_append_right
    unfold web_server_playbook_body
    apply strOccurs_append_right
    apply strOccurs_append_left
    decide
  · unfold generate_ansible_playbook
    rw [if_pos rfl]
    apply strOccurs_append_right
    apply strOccurs_append_right
    unfold web_server_playbook_body
    apply strOccurs_append_right
    apply strOccurs_append_left
    decide

/-- C5 counterexample: the claim's "resolves to apache2 (not httpd)" fails
on the code — the document generated for target OS `ubuntu` still
contains `httpd` (inside the unresolved Jinja conditional of its
package-install task), and is byte-identical to the `centos` document
apart from the comment header. -/
theorem c5_ubuntu_contains_httpd :
    strOccurs "httpd" (generate_ansible_playbook "web_server" "ubuntu") = true ∧
    (generate_ansible_playbook "web_server" "ubuntu" =
      "---\n# Web服务器部署Playbook - " ++ ("ubuntu" ++ web_server_playbook_body)) ∧
    (generate_ansible_playbook "web_server" "centos" =
      "---\n# Web服务器部署Playbook - " ++ ("centos" ++ web_server_playbook_body)) :=
  ⟨(c5_web_server_playbook "ubuntu").2.2.2.1, rfl, rfl⟩

theorem string_data_append (s t : String) : (s ++ t).data = s.data ++ t.data := by
  cases s
  cases t
  rfl

theorem splitNL_ne_nil (l : List Char) : splitNL l ≠ [] := by
  cases l with
  | nil => simp [splitNL]
  | cons c r =>
    by_cases hc : c = '\n'
    · simp [splitNL, hc]
    · simp only [splitNL, hc, if_false]
      cases splitNL r <;> simp

theorem splitNL_cons_of_ne (c : Char) (r : List Char) (hc : ¬ c = '\n') :
    splitNL (c :: r) = (c :: (splitNL r).headD []) :: (splitNL r).tail := by
  simp only [splitNL, hc, if_false]
  cases h : splitNL r with
  | nil => exact absurd h (splitNL_ne_nil r)
  | cons a t => rfl

theorem splitNL_append (a b : List Char) :
    splitNL (a ++ b) =
      (splitNL a).dropLast ++
        ((splitNL a).getLastD [] ++ (splitNL b).headD []) :: (splitNL b).tail := by
  induction a with
  | nil =>
    cases hb : splitNL b with
    | nil => exact absurd hb (splitNL_ne_nil b)
    | cons h t => simp [splitNL, hb]
  | cons c a ih =>
    by_cases hc : c = '\n'
    · subst hc
      have h1 : splitNL ('\n' :: (a ++ b)) = [] :: splitNL (a ++ b) := by
        simp [splitNL]
      have h2 : splitNL ('\n' :: a) = [] :: splitNL a := by
        simp [splitNL]
      rw [List.cons_append, h1, ih, h2]
      cases ha : splitNL a with
      | nil => exact absurd ha (splitNL_ne_nil a)
      | cons h t =>
        cases t with
        | nil => simp [List.dropLast, List.getLastD]
        | cons h2 t2 => simp [List.dropLast, List.getLastD]
    · rw [List.cons_append, splitNL_cons_of_ne c _ hc, ih,
          splitNL_cons_of_ne c a hc]
      cases ha : splitNL a with
      | nil => exact absurd ha (splitNL_ne_nil a)
      | cons h t =>
        cases t with
        | nil =>
          simp [List.dropLast, List.getLastD]
        | cons h2 t2 =>
          simp only [List.headD_cons, List.tail_cons, List.dropLast_cons₂,
            List.cons_append, List.getLastD_cons]

theorem splitNL_no_newline (a : List Char) (h : '\n' ∉ a) : splitNL a = [a] := by
  induction a with
  | nil => rfl
  | cons c r ih =>
    have hc : ¬ c = '\n' := fun hcc => h (by rw [hcc]; exact List.mem_cons_self _ _)
    rw [splitNL_cons_of_ne c r hc, ih (fun hr => h (List.mem_cons_of_mem c hr))]
    rfl

theorem headD_append_of_ne_nil (u v : List (List Char)) (d : List Char)
    (h : u ≠ []) : (u ++ v).headD d = u.headD d := by
  cases u with
  | nil => exact absurd rfl h
  | cons a t => rfl

theorem tail_append_of_ne_nil (u v : List (List Char)) (h : u ≠ []) :
    (u ++ v).tail = u.tail ++ v := by
  cases u with
  | nil => exact absurd rfl h
  | cons a t => rfl

theorem pyStripLeft_append_of_ne_nil (a b : List Char)
    (h : pyStripLeft a ≠ []) : pyStripLeft (a ++ b) = pyStripLeft a ++ b := by
  unfold pyStripLeft at *
  rw [List.dropWhile_append, if_neg (by simpa using h)]

theorem pyStripRight_append_of_ne_nil (a b : List Char)
    (h : pyStripRight b ≠ []) : pyStripRight (a ++ b) = a ++ pyStripRight b := by
  unfold pyStripRight at *
  rw [List.reverse_append, List.dropWhile_append]
  rw [if_neg]
  · rw [List.reverse_append, List.reverse_reverse]
  · intro hc
    rw [List.isEmpty_iff] at hc
    exact h (by rw [hc]; rfl)

theorem pyStripRight_cons_head (c : Char) (r : List Char)
    (hc : pyIsSpace c = false) :
    ∃ t, pyStripRight (c :: r) = c :: t := by
  unfold pyStripRight
  have hrev : (c :: r).reverse = r.reverse ++ [c] := by simp
  rw [hrev, List.dropWhile_append]
  by_cases he : (r.reverse.dropWhile pyIsSpace).isEmpty
  · rw [if_pos he]
    exact ⟨[], by simp [List.dropWhile, hc]⟩
  · rw [if_neg he]
    exact ⟨(r.reverse.dropWhile pyIsSpace).reverse, by simp⟩

theorem pyStrip_cons_head (c : Char) (r : List Char)
    (hc : pyIsSpace c = false) :
    ∃ t, pyStrip (c :: r) = c :: t := by
  unfold pyStrip pyStripLeft
  rw [List.dropWhile_cons_of_neg (by simp [hc])]
  exact pyStripRight_cons_head c r hc

theorem checkIniLines_cons_eq (line : List Char) (rest : List (List Char)) :
    checkIniLines (line :: rest) =
      if pyStrip line ≠ [] ∧ isPrefixOfL ['#'] (pyStrip line) = false ∧
          isPrefixOfL ['['] (pyStrip line) = false then
        if '=' ∉ pyStrip line then
          (false, ⟨"Inventory文件格式错误: ".data ++ pyStrip line⟩)
        else checkIniLines rest
      else checkIniLines rest := rfl

theorem checkIniLines_cons_pass (line : List Char) (rest : List (List Char))
    (h : iniLinePasses line = true) :
    checkIniLines (line :: rest) = checkIniLines rest := by
  unfold iniLinePasses at h
  rw [checkIniLines_cons_eq]
  by_cases hg : pyStrip line ≠ [] ∧ isPrefixOfL ['#'] (pyStrip line) = false ∧
      isPrefixOfL ['['] (pyStrip line) = false
  · rw [if_pos hg] at h
    rw [if_pos hg, if_neg (by simpa using h)]
  · rw [if_neg hg]

theorem checkIniLines_append_pass (xs ys : List (List Char))
    (h : ∀ l ∈ xs, iniLinePasses l = true) :
    checkIniLines (xs ++ ys) = checkIniLines ys := by
  induction xs with
  | nil => rfl
  | cons x xs ih =>
    rw [List.cons_append, checkIniLines_cons_pass x _ (h x (by simp)),
        ih (fun l hl => h l (by simp [hl]))]

theorem checkIniLines_cons_fail (line : List Char) (rest : List (List Char))
    (h : iniLinePasses line = false) :
    checkIniLines (line :: rest) =
      (false, ⟨"Inventory文件格式错误: ".data ++ pyStrip line⟩) := by
  unfold iniLinePasses at h
  rw [checkIniLines_cons_eq]
  by_cases hg : pyStrip line ≠ [] ∧ isPrefixOfL ['#'] (pyStrip line) = false ∧
      isPrefixOfL ['['] (pyStrip line) = false
  · rw [if_pos hg] at h
    rw [if_pos hg, if_pos (by simpa using h)]
  · rw [if_neg hg] at h
    exact absurd h (by simp)

theorem iniLinePasses_of_head (c : Char) (r : List Char)
    (hc : pyIsSpace c = false)
    (hcc : c = '#' ∨ c = '[') :
    iniLinePasses (c :: r) = true := by
  obtain ⟨t, ht⟩ := pyStrip_cons_head c r hc
  unfold iniLinePasses
  rw [ht]
  rcases hcc with rfl | rfl
  · rw [if_neg]
    rintro ⟨h1, h2, h3⟩
    simp [isPrefixOfL] at h2
  · rw [if_neg]
    rintro ⟨h1, h2, h3⟩
    simp [isPrefixOfL] at h3

theorem ne_nil_append_right (a b : List Char) (h : b ≠ []) : a ++ b ≠ [] := by
  intro hc
  rcases List.append_eq_nil.mp hc with ⟨h1, h2⟩
  exact h h2

theorem splitNL_append_no_nl_left (a b : List Char) (h : '\n' ∉ a) :
    splitNL (a ++ b) = (a ++ (splitNL b).headD []) :: (splitNL b).tail := by
  rw [splitNL_append, splitNL_no_newline a h]
  simp [List.dropLast, List.getLastD]

/-- C10: for every newline-free environment string, validating the
generated inventory file with the `ini` heuristic fails, quoting verbatim
the first bare group-name line `webservers` of the
`[<environment>:children]` section — those lines contain no `=`. -/
theorem c10_inventory_ini_roundtrip (tc : Toolchain) (env : String)
    (henv : '\n' ∉ env.data) :
    validate_ansible_code tc (generate_inventory_file env) "ini" =
      (false, "Inventory文件格式错误: webservers") := by
  have hstep : validate_ansible_code tc (generate_inventory_file env) "ini" =
      checkIniLines (splitNL (pyStrip (generate_inventory_file env).data)) := by
    unfold validate_ansible_code
    rw [if_neg (by decide), if_pos rfl]
  rw [hstep]
  have hdata : (generate_inventory_file env).data =
      inv_A.data ++ (env.data ++ (inv_B.data ++ (env.data ++ (inv_C.data ++
        (env.data ++ (inv_D.data ++ (env.data ++ (inv_E.data ++
          (inv_Q.data ++ inv_NL.data))))))))) := by
    unfold generate_inventory_file
    simp only [string_data_append]
  -- the outer strip keeps the leading '#' and removes only the trailing
  -- newline, leaving the closing apostrophe as the last character
  have h0 : pyStripRight (inv_Q.data ++ inv_NL.data) = inv_Q.data := by decide
  have h1 : pyStripRight (inv_E.data ++ (inv_Q.data ++ inv_NL.data)) =
      inv_E.data ++ inv_Q.data := by
    rw [pyStripRight_append_of_ne_nil _ _ (by rw [h0]; decide), h0]
  have h2 : pyStripRight (env.data ++ (inv_E.data ++ (inv_Q.data ++ inv_NL.data)))
      = env.data ++ (inv_E.data ++ inv_Q.data) := by
    rw [pyStripRight_append_of_ne_nil _ _ (by rw [h1]; decide), h1]
  have h2ne : env.data ++ (inv_E.data ++ inv_Q.data) ≠ [] :=
    ne_nil_append_right _ _ (by decide)
  have h3 : pyStripRight (inv_D.data ++ (env.data ++ (inv_E.data ++
      (inv_Q.data ++ inv_NL.data)))) =
      inv_D.data ++ (env.data ++ (inv_E.data ++ inv_Q.data)) := by
    rw [pyStripRight_append_of_ne_nil _ _ (by rw [h2]; exact h2ne), h2]
  have h3ne : inv_D.data ++ (env.data ++ (inv_E.data ++ inv_Q.data)) ≠ [] :=
    ne_nil_append_right _ _ h2ne
  have h4 : pyStripRight (env.data ++ (inv_D.data ++ (env.data ++ (inv_E.data ++
      (inv_Q.data ++ inv_NL.data))))) =
      env.data ++ (inv_D.data ++ (env.data ++ (inv_E.data ++ inv_Q.data))) := by
    rw [pyStripRight_append_of_ne_nil _ _ (by rw [h3]; exact h3ne), h3]
  have h4ne : env.data ++ (inv_D.data ++ (env.data ++ (inv_E.data ++ inv_Q.data)))
      ≠ [] := ne_nil_append_right _ _ h3ne
  have h5 : pyStripRight (inv_C.data ++ (env.data ++ (inv_D.data ++ (env.data ++
      (inv_E.data ++ (inv_Q.data ++ inv_NL.data)))))) =
      inv_C.data ++ (env.data ++ (inv_D.data ++ (env.data ++
        (inv_E.data ++ inv_Q.data)))) := by
    rw [pyStripRight_append_of_ne_nil _ _ (by rw [h4]; exact h4ne), h4]
  have h5ne : inv_C.data ++ (env.data ++ (inv_D.data ++ (env.data ++
      (inv_E.data ++ inv_Q.data)))) ≠ [] := ne_nil_append_right _ _ h4ne
  have h6 : pyStripRight (env.data ++ (inv_C.data ++ (env.data ++ (inv_D.data ++
      (env.data ++ (inv_E.data ++ (inv_Q.data ++ inv_NL.data))))))) =
      env.data ++ (inv_C.data ++ (env.data ++ (inv_D.data ++ (env.data ++
        (inv_E.data ++ inv_Q.data))))) := by
    rw [pyStripRight_append_of_ne_nil _ _ (by rw [h5]; exact h5ne), h5]
  have h6ne : env.data ++ (inv_C.data ++ (env.data ++ (inv_D.data ++ (env.data ++
      (inv_E.data ++ inv_Q.data))))) ≠ [] := ne_nil_append_right _ _ h5ne
  have h7 : pyStripRight (inv_B.data ++ (env.data ++ (inv_C.data ++ (env.data ++
      (inv_D.data ++ (env.data ++ (inv_E.data ++ (inv_Q.data ++ inv_NL.data)))))))) =
      inv_B.data ++ (env.data ++ (inv_C.data ++ (env.data ++ (inv_D.data ++
        (env.data ++ (inv_E.data ++ inv_Q.data)))))) := by
    rw [pyStripRight_append_of_ne_nil _ _ (by rw [h6]; exact h6ne), h6]
  have h7ne : inv_B.data ++ (env.data ++ (inv_C.data ++ (env.data ++ (inv_D.data
      ++ (env.data ++ (inv_E.data ++ inv_Q.data)))))) ≠ [] :=
    ne_nil_append_right _ _ h6ne
  have h8 : pyStripRight (env.data ++ (inv_B.data ++ (env.data ++ (inv_C.data ++
      (env.data ++ (inv_D.data ++ (env.data ++ (inv_E.data ++
        (inv_Q.data ++ inv_NL.data))))))))) =
      env.data ++ (inv_B.data ++ (env.data ++ (inv_C.data ++ (env.data ++
        (inv_D.data ++ (env.data ++ (inv_E.data ++ inv_Q.data))))))) := by
    rw [pyStripRight_append_of_ne_nil _ _ (by rw [h7]; exact h7ne), h7]
  have h8ne : env.data ++ (inv_B.data ++ (env.data ++ (inv_C.data ++ (env.data ++
      (inv_D.data ++ (env.data ++ (inv_E.data ++ inv_Q.data))))))) ≠ [] :=
    ne_nil_append_right _ _ h7ne
  have h9 : pyStripRight (inv_A.data ++ (env.data ++ (inv_B.data ++ (env.data ++
      (inv_C.data ++ (env.data ++ (inv_D.data ++ (env.data ++ (inv_E.data ++
        (inv_Q.data ++ inv_NL.data)))))))))) =
      inv_A.data ++ (env.data ++ (inv_B.data ++ (env.data ++ (inv_C.data ++
        (env.data ++ (inv_D.data ++ (env.data ++ (inv_E.data ++ inv_Q.data))))))))
      := by
    rw [pyStripRight_append_of_ne_nil _ _ (by rw [h8]; exact h8ne), h8]
  have hstripleft : pyStripLeft inv_A.data = inv_A.data := by decide
  have hstrip : pyStrip (generate_inventory_file env).data =
      inv_A.data ++ (env.data ++ (inv_B.data ++ (env.data ++ (inv_C.data ++
        (env.data ++ (inv_D.data ++ (env.data ++ (inv_E.data ++ inv_Q.data))))))))
      := by
    rw [hdata]
    unfold pyStrip
    rw [pyStripLeft_append_of_ne_nil _ _ (by rw [hstripleft]; decide), hstripleft,
        h9]
  rw [hstrip]
  -- split into lines
  rw [splitNL_append_no_nl_left inv_A.data _ (by decide),
      splitNL_append_no_nl_left env.data _ henv,
      splitNL_append inv_B.data,
      splitNL_append_no_nl_left env.data _ henv,
      splitNL_append inv_C.data]
  rw [headD_append_of_ne_nil _ _ _ (by decide), tail_append_of_ne_nil _ _
        (by decide : (splitNL inv_B.data).dropLast ≠ []),
      headD_append_of_ne_nil _ _ _ (by decide), tail_append_of_ne_nil _ _
        (by decide : (splitNL inv_C.data).dropLast ≠ [])]
  rw [(by decide : (splitNL inv_B.data).dropLast.headD [] = "环境".data),
      (by decide : (splitNL inv_B.data).getLastD [] = "[".data),
      (by decide : (splitNL inv_C.data).dropLast.headD [] = ":children]".data),
      (by decide : (splitNL inv_C.data).dropLast.tail =
        ["webservers".data, "databases".data, "appservers".data,
         "monitoring".data, "loadbalancers".data, ([] : List Char)])]
  -- run the scan
  have hA : inv_A.data = '#' :: " Ansible Inventory文件 - ".data := by decide
  rw [hA, (by decide : ("[" : String).data = ['['])]
  simp only [List.headD_cons, List.tail_cons, List.cons_append,
    List.singleton_append]
  rw [checkIniLines_cons_pass _ _
        (iniLinePasses_of_head '#' _ (by decide) (Or.inl rfl)),
      checkIniLines_append_pass _ _ (by decide),
      checkIniLines_cons_pass _ _
        (iniLinePasses_of_head '[' _ (by decide) (Or.inr rfl)),
      checkIniLines_cons_fail _ _ (by decide)]
  decide

/-- C10 witness: the default `"production"` environment with a concrete
toolchain. -/
theorem c10_inventory_ini_roundtrip_witness :
    validate_ansible_code empty_ok_toolchain (generate_inventory_file "production")
        "ini" =
      (false, "Inventory文件格式错误: webservers") :=
  c10_inventory_ini_roundtrip empty_ok_toolchain "production" (by decide)
